import Mathlib

/-!
Verification development for the Nansat virtual-raster core (`nansat.py`).

The definitions below are a shallow embedding of the code in `src/nansat.py`:
the `Nansat` object holding a `raw` and a working (`vrt`) virtual raster tree,
the band resolver `_get_band_number`, the mutation operations `add_band`,
`resize`, `reproject`, the `export` data-type narrowing pass, and the
`mosaic` averager.  Python machine floats are modelled as exact rationals,
python ints as `Int`, python dicts as ordered association lists, and numpy
arrays as functions from pixel coordinates to rationals.  Methods that can
raise are embedded as functions returning the post-state together with an
optional raised error (`Obj x Option Err`), or as `Except Err` values.

The classes `VRT` (file `vrt.py`) and `Domain` (file `domain.py`) are not part
of the sources; the few of their operations that the claims need
(`VRT._create_band`, `VRT.create_warped_vrt`, array wrapping, `Domain.shape`)
are modelled from the specification and are marked as such in their doc
comments.
-/

/-- Python dict as an ordered association list of string keys and values. -/
abbrev Metadata := List (String × String)

/-- Python dict lookup: the first entry with the given key wins (keys of a
real python dict are unique). -/
def mdLookup : Metadata → String → Option String
  | [], _ => none
  | kv :: rest, k => if kv.1 = k then some kv.2 else mdLookup rest k

/-- Python dict assignment `d[k] = v`: replace the value in place when the key
exists (order preserved), append the pair otherwise. -/
def dictSet (d : Metadata) (k v : String) : Metadata :=
  if (mdLookup d k).isSome then
    d.map (fun kv => if kv.1 = k then (k, v) else kv)
  else d ++ [(k, v)]

/-- Python dict update loop `for key in p: d[key] = p[key]` (caller keys win
on conflict). -/
def dictUpdate (d : Metadata) (p : Metadata) : Metadata :=
  p.foldl (fun acc kv => dictSet acc kv.1 kv.2) d

/-- A ground control point of a GDAL dataset (pixel/line image coordinates
and geographic coordinates). -/
structure GCP where
  pixel : ℚ
  line : ℚ
  x : ℚ
  y : ℚ
  deriving DecidableEq, Repr

/-- The source tag of a VRT raster band (`ComplexSource`, `SimpleSource`, or
the nansat-specific `AveragedSource` written by `resize`). -/
inductive SourceType where
  | complexSource
  | simpleSource
  | averagedSource
  deriving DecidableEq, Repr

/-- One band descriptor of a virtual raster tree: a source reference
(filename and band index), the band metadata (which carries `BandName`),
the on-disk element type (the `dataType` attribute of the `VRTRasterBand`
node, a GDAL data-type name), and the source tag. -/
structure Band where
  sourceFilename : String
  sourceBand : ℤ
  metadata : Metadata
  dataType : String
  sourceType : SourceType
  deriving DecidableEq, Repr

/-- A GDAL geotransform: six rational coefficients. -/
abbrev GeoTransform := ℚ × ℚ × ℚ × ℚ × ℚ × ℚ

/-- A virtual raster tree (the in-memory VRT dataset): raster size, pixel to
geographic mapping (geotransform, projection, GCPs), the ordered band list
(1-based external numbering) and global metadata. -/
structure VRTTree where
  fileName : String
  rasterXSize : ℤ
  rasterYSize : ℤ
  geotransform : GeoTransform
  projection : String
  gcpProjection : String
  gcps : List GCP
  bands : List Band
  metadata : Metadata
  deriving DecidableEq, Repr

/-- The owning `Nansat` object: the never-resized, never-reprojected `raw`
tree, the working tree `vrt`, and the keep-alive table `addedBands` of
intermediate trees backing added bands. -/
structure NansatObj where
  raw : VRTTree
  vrt : VRTTree
  addedBands : List (String × VRTTree)
  deriving DecidableEq, Repr

/-- The python exception classes raised by the embedded code paths.
`optionError` is nansat `OptionError` (used both for an unresolvable band
identifier and for a bad resize method), `keyError` a python `KeyError`,
`projectionError` nansat `ProjectionError`, `attributeError` a python
`AttributeError` (e.g. `None.copy()` when a file cannot be opened). -/
inductive Err where
  | optionError
  | keyError
  | projectionError
  | attributeError
  deriving DecidableEq, Repr

/-- A band identifier: a python int (1-based ordinal) or a band-name string. -/
inductive BandID where
  | num (n : ℤ)
  | name (s : String)
  deriving DecidableEq, Repr

/-- The `BandName` metadata of a band, when present. -/
def bandNameOf (b : Band) : Option String :=
  mdLookup b.metadata "BandName"

/-- The string branch of `Nansat._get_band_number`: iterate the band
dictionary in ascending ordinal order (CPython dict with the int keys
1..N iterates ascending); `bandNumber` is overwritten at every match, so the
last matching ordinal wins; reading a band without a `BandName` key raises
`KeyError`.  `i` is the 1-based ordinal of the head band, `acc` the current
value of `bandNumber`. -/
def findBandName : List Band → String → ℤ → ℤ → Except Err ℤ
  | [], _, _, acc => .ok acc
  | b :: rest, s, i, acc =>
    match bandNameOf b with
    | none => .error .keyError
    | some nm => findBandName rest s (i + 1) (if nm = s then i else acc)

/-- Embedding of `Nansat._get_band_number` (nansat.py lines 1060-1093),
resolving over the working tree `vrt`: an int identifier is returned
unchanged when it lies in `[1, RasterCount]`; a string identifier is matched
against the bands `BandName` metadata; otherwise `bandNumber` stays `0` and
`OptionError` is raised. -/
def getBandNumber (obj : NansatObj) (bandID : BandID) : Except Err ℤ :=
  let bandNumber : Except Err ℤ :=
    match bandID with
    | .name s => findBandName obj.vrt.bands s 1 0
    | .num n =>
      .ok (if 1 ≤ n ∧ n ≤ (obj.vrt.bands.length : ℤ) then n else 0)
  match bandNumber with
  | .error e => .error e
  | .ok bn => if bn = 0 then .error .optionError else .ok bn

/-- A band whose name is present but different from `s` neither matches nor
raises, so the scan just walks past it. -/
theorem findBandName_skip (l : List Band) (s : String) (i acc : ℤ)
    (h : ∀ b ∈ l, (bandNameOf b).isSome ∧ bandNameOf b ≠ some s) :
    findBandName l s i acc = .ok acc := by
  induction l generalizing i with
  | nil => rfl
  | cons b rest ih =>
    obtain ⟨hsome, hnot⟩ := h b (List.mem_cons_self b rest)
    obtain ⟨nm, hnm⟩ := Option.isSome_iff_exists.mp hsome
    have hne : nm ≠ s := fun he => hnot (he ▸ hnm)
    rw [findBandName, hnm]
    simp only [if_neg hne]
    exact ih (i + 1) (fun b' hb' => h b' (List.mem_cons_of_mem b hb'))

/-- Walking a prefix of non-matching, named bands only advances the ordinal
counter. -/
theorem findBandName_append (l₁ : List Band) (b : Band) (l₂ : List Band)
    (s : String) (i acc : ℤ)
    (h₁ : ∀ b' ∈ l₁, (bandNameOf b').isSome ∧ bandNameOf b' ≠ some s) :
    findBandName (l₁ ++ b :: l₂) s i acc =
      findBandName (b :: l₂) s (i + l₁.length) acc := by
  induction l₁ generalizing i with
  | nil => simp
  | cons hd tl ih =>
    obtain ⟨hsome, hnot⟩ := h₁ hd (List.mem_cons_self hd tl)
    obtain ⟨nm, hnm⟩ := Option.isSome_iff_exists.mp hsome
    have hne : nm ≠ s := fun he => hnot (he ▸ hnm)
    rw [List.cons_append, findBandName, hnm]
    simp only [if_neg hne]
    rw [ih (i + 1) (fun b' hb' => h₁ b' (List.mem_cons_of_mem hd hb'))]
    congr 1
    simp only [List.length_cons]
    push_cast
    ring

/-- When the last band of the list matches, the scan returns its ordinal
(the last match overwrites `bandNumber`). -/
theorem findBandName_last : ∀ (l : List Band) (b : Band) (s : String)
    (i acc : ℤ),
    (∀ b' ∈ l, (bandNameOf b').isSome) →
    bandNameOf b = some s →
    findBandName (l ++ [b]) s i acc = .ok (i + l.length)
  | [], b, s, i, acc, _, hb => by
    rw [List.nil_append, findBandName, hb]
    simp [findBandName]
  | hd :: tl, b, s, i, acc, hl, hb => by
    have hh := hl hd (List.mem_cons_self hd tl)
    obtain ⟨nm, hnm⟩ := Option.isSome_iff_exists.mp hh
    rw [List.cons_append, findBandName, hnm]
    dsimp only
    rw [findBandName_last tl b s (i + 1) (if nm = s then i else acc)
      (fun b' hb' => hl b' (List.mem_cons_of_mem hd hb')) hb]
    congr 1
    simp only [List.length_cons]
    push_cast
    ring

/-- Sample band named "a". -/
def bandA : Band :=
  { sourceFilename := "f", sourceBand := 1,
    metadata := [("BandName", "a"), ("units", "m")],
    dataType := "Float32", sourceType := .complexSource }

/-- Sample band named "b". -/
def bandB : Band :=
  { sourceFilename := "f", sourceBand := 2,
    metadata := [("BandName", "b")],
    dataType := "UInt16", sourceType := .simpleSource }

/-- Sample 4x4 tree with two named bands. -/
def tree4 : VRTTree :=
  { fileName := "t4", rasterXSize := 4, rasterYSize := 4,
    geotransform := (0, 1, 0, 0, 0, -1), projection := "",
    gcpProjection := "", gcps := [], bands := [bandA, bandB],
    metadata := [] }

/-- Sample Nansat object over `tree4`. -/
def obj4 : NansatObj :=
  { raw := tree4, vrt := tree4, addedBands := [] }

/-- Claim C1: resolving an in-range integer band identifier returns it
unchanged; resolving a name carried (as `BandName` metadata) by exactly one
band of the working tree returns that band's 1-based ordinal, provided every
band carries a `BandName` entry (the data-model invariant); resolving an
out-of-range ordinal, or a name no band carries, raises the band-not-found
`OptionError` instead of returning a band number. -/
theorem C1_band_resolver :
    (∀ (obj : NansatObj) (n : ℤ),
        1 ≤ n → n ≤ (obj.vrt.bands.length : ℤ) →
        getBandNumber obj (.num n) = .ok n) ∧
    (∀ (obj : NansatObj) (l₁ : List Band) (b : Band) (l₂ : List Band)
        (s : String),
        obj.vrt.bands = l₁ ++ b :: l₂ →
        bandNameOf b = some s →
        (∀ b' ∈ l₁, (bandNameOf b').isSome ∧ bandNameOf b' ≠ some s) →
        (∀ b' ∈ l₂, (bandNameOf b').isSome ∧ bandNameOf b' ≠ some s) →
        getBandNumber obj (.name s) = .ok ((l₁.length : ℤ) + 1)) ∧
    (∀ (obj : NansatObj) (n : ℤ),
        (n < 1 ∨ (obj.vrt.bands.length : ℤ) < n) →
        getBandNumber obj (.num n) = .error .optionError) ∧
    (∀ (obj : NansatObj) (s : String),
        (∀ b ∈ obj.vrt.bands, (bandNameOf b).isSome ∧ bandNameOf b ≠ some s) →
        getBandNumber obj (.name s) = .error .optionError) := by
  refine ⟨?_, ?_, ?_, ?_⟩
  · intro obj n h1 h2
    have hn : ¬ n = 0 := by omega
    simp only [getBandNumber]
    rw [if_pos (show 1 ≤ n ∧ n ≤ (obj.vrt.bands.length : ℤ) from ⟨h1, h2⟩)]
    simp only [if_neg hn]
  · intro obj l₁ b l₂ s hbands hb h₁ h₂
    have hscan : findBandName obj.vrt.bands s 1 0 = .ok ((l₁.length : ℤ) + 1) := by
      rw [hbands, findBandName_append l₁ b l₂ s 1 0 h₁, findBandName, hb]
      dsimp only
      rw [if_pos rfl, findBandName_skip l₂ s (1 + (l₁.length : ℤ) + 1)
        (1 + (l₁.length : ℤ)) h₂]
      congr 1
      ring
    have hne : ¬ ((l₁.length : ℤ) + 1 = 0) := by
      have := Int.ofNat_nonneg l₁.length
      omega
    simp only [getBandNumber, hscan, if_neg hne]
  · intro obj n h
    have hcond : ¬ (1 ≤ n ∧ n ≤ (obj.vrt.bands.length : ℤ)) := by omega
    simp only [getBandNumber]
    rw [if_neg hcond]
    simp
  · intro obj s h
    have hscan : findBandName obj.vrt.bands s 1 0 = .ok 0 :=
      findBandName_skip obj.vrt.bands s 1 0 h
    simp only [getBandNumber, hscan]
    simp

/-- Witness for C1: the resolver evaluated on the concrete object `obj4`. -/
theorem C1_band_resolver_witness :
    ((1 : ℤ) ≤ 1 ∧ (1 : ℤ) ≤ (obj4.vrt.bands.length : ℤ) ∧
      getBandNumber obj4 (.num 1) = .ok 1) ∧
    getBandNumber obj4 (.name "b") = .ok (([bandA].length : ℤ) + 1) ∧
    getBandNumber obj4 (.num 3) = .error .optionError ∧
    getBandNumber obj4 (.name "zzz") = .error .optionError := by
  refine ⟨⟨by decide, by decide, C1_band_resolver.1 obj4 1 (by decide) (by decide)⟩,
    C1_band_resolver.2.1 obj4 [bandA] bandB [] "b" (by decide) (by decide)
      (by decide) (by decide),
    C1_band_resolver.2.2.1 obj4 3 (by decide),
    C1_band_resolver.2.2.2 obj4 "zzz" (by decide)⟩

/-- Python `int()` applied to a float value: truncation toward zero. -/
def pyTrunc (q : ℚ) : ℤ := if 0 ≤ q then ⌊q⌋ else ⌈q⌉

/-- The tag rewrite of `resize` with method `average`: `replaceTag` turns both
`ComplexSource` and `SimpleSource` into `AveragedSource`. -/
def averagedTag : SourceType → SourceType
  | .complexSource => .averagedSource
  | .simpleSource => .averagedSource
  | .averagedSource => .averagedSource

/-- The factor actually applied by `resize` (nansat.py lines 441-445): the
given factor, overwritten by `width / RasterXSize` when `width` is given, in
turn overwritten by `height / RasterYSize` when `height` is given; the sizes
are read from the working tree. -/
def effectiveFactor (obj : NansatObj) (factor : ℚ)
    (width height : Option ℤ) : ℚ :=
  let factor := match width with
    | some w => (w : ℚ) / (obj.vrt.rasterXSize : ℚ)
    | none => factor
  match height with
  | some h => (h : ℚ) / (obj.vrt.rasterYSize : ℚ)
  | none => factor

/-- Embedding of `Nansat.resize` (nansat.py lines 407-485).  With factor 1 and
no width/height the working tree is reset to a copy of `raw` before anything
else.  Otherwise the effective factor is computed, the method is validated
(`OptionError` for anything but `average` or `subsample`, raised before the
working tree is written), the new raster sizes are `int(oldSize * factor)`
(python truncation), band source tags are rewritten for method `average`, and
each GCP pixel/line is scaled by the factor and clamped to the new size. -/
def resize (obj : NansatObj) (factor : ℚ) (width height : Option ℤ)
    (method : String) : NansatObj × Option Err :=
  if factor = 1 ∧ width = none ∧ height = none then
    ({ obj with vrt := obj.raw }, none)
  else
    let factor := effectiveFactor obj factor width height
    if ¬ (method = "average" ∨ method = "subsample") then
      (obj, some .optionError)
    else
      let rXS := pyTrunc ((obj.vrt.rasterXSize : ℚ) * factor)
      let rYS := pyTrunc ((obj.vrt.rasterYSize : ℚ) * factor)
      let newBands :=
        if method = "average" then
          obj.vrt.bands.map
            (fun b => { b with sourceType := averagedTag b.sourceType })
        else obj.vrt.bands
      let newGCPs := obj.vrt.gcps.map (fun g =>
        let pxl := g.pixel * factor
        let pxl := if pxl > (rXS : ℚ) then (rXS : ℚ) else pxl
        let lin := g.line * factor
        let lin := if lin > (rYS : ℚ) then (rYS : ℚ) else lin
        { g with pixel := pxl, line := lin })
      ({ obj with
          vrt := { obj.vrt with
                    rasterXSize := rXS
                    rasterYSize := rYS
                    bands := newBands
                    gcps := newGCPs } }, none)

/-- Modelled from the spec: `VRT.create_warped_vrt` lives in `vrt.py`, which
is not among the sources.  Per spec section 4.4 the warp delegates to the
raster engine and builds a new tree whose size and geotransform exactly match
the target, and it fails with `ProjectionError` when the target has no
resolvable projection. -/
def createWarpedVRT (src : VRTTree) (dstSRS : String) (dstGCPs : List GCP)
    (xSize ySize : ℤ) (gt : GeoTransform) : Except Err VRTTree :=
  if dstSRS = "" ∧ dstGCPs = [] then .error .projectionError
  else
    .ok { src with
           rasterXSize := xSize
           rasterYSize := ySize
           geotransform := gt
           gcps := dstGCPs
           projection := dstSRS }

/-- Embedding of `Nansat.reproject` (nansat.py lines 547-599): with no
destination domain the working tree is reset to a copy of `raw`; otherwise
the destination spatial reference is the domain GCP projection when the
domain has GCPs, else its dataset projection, and a warped tree built from
`raw` replaces the working tree.  A raised warp error propagates before
`self.vrt` is reassigned. -/
def reproject (obj : NansatObj) (dstDomain : Option VRTTree) :
    NansatObj × Option Err :=
  match dstDomain with
  | none => ({ obj with vrt := obj.raw }, none)
  | some d =>
    let dstSRS := if 0 < d.gcps.length then d.gcpProjection else d.projection
    match createWarpedVRT obj.raw dstSRS d.gcps d.rasterXSize d.rasterYSize
        d.geotransform with
    | .error e => (obj, some e)
    | .ok w => ({ obj with vrt := w }, none)

/-- Clamping written as an `if` equals `min`. -/
theorem ite_gt_eq_min (a c : ℚ) : (if a > c then c else a) = min a c := by
  rcases le_or_lt a c with h | h
  · rw [if_neg (not_lt.mpr h), min_eq_left h]
  · rw [if_pos h, min_eq_right h.le]

/-- Claim C10: calling `resize` with factor 1 and neither width nor height
takes the reset path unconditionally: the working tree is replaced by a fresh
copy of `raw` and the call returns before the method argument is validated,
so every method string produces the reset without raising. -/
theorem C10_resize_reset_path (obj : NansatObj) (method : String) :
    resize obj 1 none none method = ({ obj with vrt := obj.raw }, none) := by
  simp [resize]

/-- Claim C4: `resize` and `reproject`, whether they succeed or raise, leave
the `raw` tree (and with it its size, geotransform, GCPs, band list and
metadata) unmodified; only the working tree is edited or replaced. -/
theorem C4_raw_untouched (obj : NansatObj) (factor : ℚ)
    (width height : Option ℤ) (method : String) (dst : Option VRTTree) :
    (resize obj factor width height method).1.raw = obj.raw ∧
    (reproject obj dst).1.raw = obj.raw := by
  constructor
  · unfold resize
    split
    · rfl
    · dsimp only
      split
      · rfl
      · rfl
  · unfold reproject
    match dst with
    | none => rfl
    | some d =>
      dsimp only
      split
      · rfl
      · rfl

/-- Claim C6 (amended): for a `resize` call that requests an actual resize,
a method outside {`average`, `subsample`} makes the call raise `OptionError`
with both trees untouched (the object is returned exactly as it was), while
`average` and `subsample` are accepted.  The claim named {`average`,
`nearest`} as the accepted set; the code accepts `subsample` (its name for
nearest-neighbour sampling) and rejects the literal string `nearest`. -/
theorem C6_resize_method_amended (obj : NansatObj) (factor : ℚ)
    (width height : Option ℤ) (method : String)
    (hreq : ¬ (factor = 1 ∧ width = none ∧ height = none)) :
    (¬ (method = "average" ∨ method = "subsample") →
      resize obj factor width height method = (obj, some .optionError)) ∧
    ((method = "average" ∨ method = "subsample") →
      (resize obj factor width height method).2 = none) := by
  constructor
  · intro hm
    unfold resize
    rw [if_neg hreq, if_pos hm]
  · intro hm
    unfold resize
    rw [if_neg hreq, if_neg (not_not_intro hm)]

/-- Counterexample for C6 as stated: the method string `nearest` is not
accepted — an actual resize with it raises `OptionError` — while `subsample`
is the accepted spelling of nearest-neighbour. -/
theorem C6_counterexample :
    (resize obj4 2 none none "nearest").2 = some Err.optionError ∧
    (resize obj4 2 none none "subsample").2 = none := by
  have hreq : ¬ ((2 : ℚ) = 1 ∧ (none : Option ℤ) = none ∧
      (none : Option ℤ) = none) := by
    intro h
    exact absurd h.1 (by norm_num)
  constructor
  · unfold resize
    rw [if_neg hreq, if_pos (by decide)]
  · unfold resize
    rw [if_neg hreq, if_neg (not_not_intro (Or.inr rfl))]

/-- Witness for C6: the amended behaviour evaluated on `obj4`. -/
theorem C6_resize_method_amended_witness :
    (¬ ((2 : ℚ) = 1 ∧ (none : Option ℤ) = none ∧ (none : Option ℤ) = none)) ∧
    resize obj4 2 none none "bilinear" = (obj4, some .optionError) ∧
    (resize obj4 2 none none "average").2 = none := by
  have hreq : ¬ ((2 : ℚ) = 1 ∧ (none : Option ℤ) = none ∧
      (none : Option ℤ) = none) := by
    intro h
    exact absurd h.1 (by norm_num)
  refine ⟨hreq, ?_, ?_⟩
  · exact (C6_resize_method_amended obj4 2 none none "bilinear" hreq).1
      (by decide)
  · exact (C6_resize_method_amended obj4 2 none none "average" hreq).2
      (Or.inl rfl)

/-- Sample 9x9 tree with one GCP, for exercising the resize scaling law. -/
def treeG : VRTTree :=
  { fileName := "tg", rasterXSize := 9, rasterYSize := 9,
    geotransform := (0, 1, 0, 0, 0, -1), projection := "",
    gcpProjection := "", gcps := [{ pixel := 7, line := 7, x := 0, y := 0 }],
    bands := [bandA], metadata := [] }

/-- Sample Nansat object over `treeG`. -/
def objG : NansatObj :=
  { raw := treeG, vrt := treeG, addedBands := [] }

/-- Counterexample for C3 as stated: `resize(factor=1/5)` of a 9-pixel-wide
tree produces width `int(9 * 0.2) = 1` (python truncation), not
`round(0.2 * 9) = 2` as the claim says. -/
theorem C3_counterexample :
    (resize objG (1/5 : ℚ) none none "average").1.vrt.rasterXSize ≠
      round ((1/5 : ℚ) * (9 : ℚ)) := by
  have hreq : ¬ ((1/5 : ℚ) = 1 ∧ (none : Option ℤ) = none ∧
      (none : Option ℤ) = none) := by
    intro h
    exact absurd h.1 (by norm_num)
  have hf : effectiveFactor objG (1/5 : ℚ) none none = 1/5 := rfl
  have h1 : (resize objG (1/5 : ℚ) none none "average").1.vrt.rasterXSize =
      pyTrunc ((objG.vrt.rasterXSize : ℚ) *
        effectiveFactor objG (1/5 : ℚ) none none) := by
    unfold resize
    rw [if_neg hreq, if_neg (not_not_intro (Or.inl rfl))]
  have hx : objG.vrt.rasterXSize = 9 := rfl
  have h2 : pyTrunc ((objG.vrt.rasterXSize : ℚ) *
      effectiveFactor objG (1/5 : ℚ) none none) = 1 := by
    rw [hf, hx]
    unfold pyTrunc
    rw [if_pos (by norm_num)]
    exact Int.floor_eq_iff.mpr (by norm_num)
  have h3 : round ((1/5 : ℚ) * (9 : ℚ)) = 2 := by
    rw [round_eq]
    exact Int.floor_eq_iff.mpr (by norm_num)
  rw [h1, h2, h3]
  decide

/-- Claim C3 (amended): for an actual resize with a valid method, the
resulting working size is `int(f * origWidth), int(f * origHeight)` with
python truncation toward zero (not rounding to nearest as claimed), where
`f` is the effective factor (given, or width/currentWidth, or
height/currentHeight, height winning when both are given); every GCP pixel
becomes `min(origPixel * f, newWidth)` and every GCP line
`min(origLine * f, newHeight)`. -/
theorem C3_resize_scaling_amended (obj : NansatObj) (factor : ℚ)
    (width height : Option ℤ) (method : String)
    (hreq : ¬ (factor = 1 ∧ width = none ∧ height = none))
    (hm : method = "average" ∨ method = "subsample") :
    (resize obj factor width height method).1.vrt.rasterXSize =
      pyTrunc ((obj.vrt.rasterXSize : ℚ) *
        effectiveFactor obj factor width height) ∧
    (resize obj factor width height method).1.vrt.rasterYSize =
      pyTrunc ((obj.vrt.rasterYSize : ℚ) *
        effectiveFactor obj factor width height) ∧
    (resize obj factor width height method).1.vrt.gcps =
      obj.vrt.gcps.map (fun g =>
        { g with
          pixel := min (g.pixel * effectiveFactor obj factor width height)
            ((pyTrunc ((obj.vrt.rasterXSize : ℚ) *
              effectiveFactor obj factor width height) : ℚ)),
          line := min (g.line * effectiveFactor obj factor width height)
            ((pyTrunc ((obj.vrt.rasterYSize : ℚ) *
              effectiveFactor obj factor width height) : ℚ)) }) := by
  unfold resize
  rw [if_neg hreq, if_neg (not_not_intro hm)]
  refine ⟨rfl, rfl, ?_⟩
  dsimp only
  simp only [ite_gt_eq_min]

/-- Witness for C3 (amended): the scaling law evaluated on `objG` with
factor 1/2. -/
theorem C3_resize_scaling_amended_witness :
    (¬ ((1/2 : ℚ) = 1 ∧ (none : Option ℤ) = none ∧
        (none : Option ℤ) = none)) ∧
    (resize objG (1/2 : ℚ) none none "average").1.vrt.rasterXSize =
      pyTrunc ((objG.vrt.rasterXSize : ℚ) *
        effectiveFactor objG (1/2 : ℚ) none none) := by
  have hreq : ¬ ((1/2 : ℚ) = 1 ∧ (none : Option ℤ) = none ∧
      (none : Option ℤ) = none) := by
    intro h
    exact absurd h.1 (by norm_num)
  exact ⟨hreq, (C3_resize_scaling_amended objG (1/2 : ℚ) none none
    "average" hreq (Or.inl rfl)).1⟩

/-- A key absent from the key list looks up to nothing. -/
theorem mdLookup_eq_none_of_not_mem (d : Metadata) (k : String)
    (h : k ∉ d.map Prod.fst) : mdLookup d k = none := by
  induction d with
  | nil => rfl
  | cons kv rest ih =>
    simp only [List.map_cons, List.mem_cons, not_or] at h
    rw [mdLookup, if_neg (fun he => h.1 he.symm)]
    exact ih h.2

/-- Lookup walks past a prefix in which the key is absent. -/
theorem mdLookup_append_of_none (d e : Metadata) (k : String)
    (h : mdLookup d k = none) : mdLookup (d ++ e) k = mdLookup e k := by
  induction d with
  | nil => rfl
  | cons kv rest ih =>
    rw [mdLookup] at h
    by_cases hc : kv.1 = k
    · rw [if_pos hc] at h
      exact absurd h (by simp)
    · rw [if_neg hc] at h
      rw [List.cons_append, mdLookup, if_neg hc]
      exact ih h

/-- Replacing the value stored under an existing key makes lookup return the
new value. -/
theorem mdLookup_mapReplace_self (d : Metadata) (k v : String)
    (h : (mdLookup d k).isSome) :
    mdLookup (d.map (fun kv => if kv.1 = k then (k, v) else kv)) k
      = some v := by
  induction d with
  | nil => simp [mdLookup] at h
  | cons kv rest ih =>
    by_cases hc : kv.1 = k
    · rw [List.map_cons, if_pos hc, mdLookup, if_pos rfl]
    · rw [List.map_cons, if_neg hc, mdLookup, if_neg hc]
      apply ih
      rw [mdLookup, if_neg hc] at h
      exact h

/-- Replacing the value stored under one key leaves other lookups alone. -/
theorem mdLookup_mapReplace_other (d : Metadata) (k v k' : String)
    (hne : k' ≠ k) :
    mdLookup (d.map (fun kv => if kv.1 = k then (k, v) else kv)) k'
      = mdLookup d k' := by
  induction d with
  | nil => rfl
  | cons kv rest ih =>
    by_cases hc : kv.1 = k
    · have h1 : ¬ ((k, v).1 = k') := fun he => hne he.symm
      have h2 : ¬ (kv.1 = k') := fun he => hne (hc.symm.trans he).symm
      rw [List.map_cons, if_pos hc]
      simp only [mdLookup, if_neg h1, if_neg h2]
      exact ih
    · rw [List.map_cons, if_neg hc]
      simp only [mdLookup]
      by_cases hck : kv.1 = k'
      · simp only [if_pos hck]
      · simp only [if_neg hck]
        exact ih

/-- Appending a single pair with a different key leaves a lookup alone. -/
theorem mdLookup_append_single_other (d : Metadata) (k v k' : String)
    (hne : k' ≠ k) :
    mdLookup (d ++ [(k, v)]) k' = mdLookup d k' := by
  induction d with
  | nil =>
    have h1 : ¬ ((k, v).1 = k') := fun he => hne he.symm
    simp only [List.nil_append, mdLookup, if_neg h1]
  | cons kv rest ih =>
    rw [List.cons_append]
    simp only [mdLookup]
    by_cases hck : kv.1 = k'
    · simp only [if_pos hck]
    · simp only [if_neg hck]
      exact ih

/-- Python dict assignment stores the value under the key. -/
theorem mdLookup_dictSet_self (d : Metadata) (k v : String) :
    mdLookup (dictSet d k v) k = some v := by
  unfold dictSet
  by_cases h : (mdLookup d k).isSome
  · rw [if_pos h]
    exact mdLookup_mapReplace_self d k v h
  · rw [if_neg h]
    rw [mdLookup_append_of_none d [(k, v)] k
      (Option.not_isSome_iff_eq_none.mp h)]
    rw [mdLookup, if_pos rfl]

/-- Python dict assignment leaves the other keys alone. -/
theorem mdLookup_dictSet_other (d : Metadata) (k v k' : String)
    (hne : k' ≠ k) : mdLookup (dictSet d k v) k' = mdLookup d k' := by
  unfold dictSet
  by_cases h : (mdLookup d k).isSome
  · rw [if_pos h]
    exact mdLookup_mapReplace_other d k v k' hne
  · rw [if_neg h]
    exact mdLookup_append_single_other d k v k' hne

/-- Lookup in an updated dict with duplicate-free update keys: the update
wins where it has the key, the base dict answers otherwise. -/
theorem mdLookup_dictUpdate (d p : Metadata) (k : String)
    (hnodup : (p.map Prod.fst).Nodup) :
    mdLookup (dictUpdate d p) k =
      match mdLookup p k with
      | some v => some v
      | none => mdLookup d k := by
  induction p generalizing d k with
  | nil => rfl
  | cons kv rest ih =>
    simp only [List.map_cons, List.nodup_cons] at hnodup
    obtain ⟨hnotin, hnd⟩ := hnodup
    have hstep : dictUpdate d (kv :: rest)
        = dictUpdate (dictSet d kv.1 kv.2) rest := rfl
    rw [hstep, ih (dictSet d kv.1 kv.2) k hnd]
    by_cases hc : kv.1 = k
    · subst hc
      rw [mdLookup_eq_none_of_not_mem rest kv.1 hnotin]
      dsimp only
      rw [mdLookup_dictSet_self d kv.1 kv.2, mdLookup, if_pos rfl]
    · rw [mdLookup_dictSet_other d kv.1 kv.2 k (fun he => hc he.symm),
        mdLookup, if_neg hc]

/-- Modelled from the spec (and from the call
`srcVRT.resized(self.shape()[1], self.shape()[0], ...)` in `add_band`):
`Domain.shape` lives in `domain.py`, which is not among the sources; it is
the numpy-style `(ySize, xSize)` of the working tree. -/
def nansatShape (obj : NansatObj) : ℤ × ℤ :=
  (obj.vrt.rasterYSize, obj.vrt.rasterXSize)

/-- A numpy 2D array: its shape `(rows, cols)` and its per-pixel values. -/
structure PyArray where
  shape : ℤ × ℤ
  data : ℕ × ℕ → ℚ

/-- Modelled from the spec: `VRT.__init__(array=...)` lives in `vrt.py`,
which is not among the sources; it wraps an in-memory array as a one-band
tree whose raster size is the array shape. -/
def vrtFromArray (a : PyArray) : VRTTree :=
  { fileName := "/vsimem/array.vrt", rasterXSize := a.shape.2,
    rasterYSize := a.shape.1, geotransform := (0, 1, 0, 0, 0, 1),
    projection := "", gcpProjection := "", gcps := [],
    bands := [{ sourceFilename := "/vsimem/array.raw", sourceBand := 1,
                metadata := [], dataType := "Float64",
                sourceType := .complexSource }],
    metadata := [] }

/-- Modelled from the spec: `VRT.resized` lives in `vrt.py`, which is not
among the sources; it resamples a tree to the given width and height with the
declared resampling algorithm. -/
def vrtResized (t : VRTTree) (w h : ℤ) (resamplingAlg : ℤ) : VRTTree :=
  { t with rasterXSize := w, rasterYSize := h }

/-- Modelled from the spec: `VRT._create_band` lives in `vrt.py`, which is
not among the sources.  Per spec section 4.2 step 5 it appends one descriptor
referencing the given source band and carrying the merged metadata, and it
returns the created band's name (the `BandName` metadata entry). -/
def createBand (t : VRTTree) (srcFn : String) (srcBand : ℤ) (dt : String)
    (meta : Metadata) : VRTTree × String :=
  let nm := (mdLookup meta "BandName").getD
    ("band" ++ toString (t.bands.length + 1))
  ({ t with
      bands := t.bands ++
        [{ sourceFilename := srcFn, sourceBand := srcBand, metadata := meta,
           dataType := dt, sourceType := .complexSource }] }, nm)

/-- Embedding of the array branch of `Nansat.add_band` (nansat.py lines
199-278, called with `fileName=None`, `vrt=None`, `array=arr`): wrap the
array in a fresh VRT (resampled to the current shape when the shapes
differ), merge the caller parameters over the inherited metadata (empty for
an array source, caller keys winning), append the new descriptor to `raw`
with source band number 1, record the wrapping tree in the keep-alive table
`addedBands`, and rebuild the working tree as a fresh copy of `raw`. -/
def add_band_array (obj : NansatObj) (arr : PyArray) (parameters : Metadata)
    (resamplingAlg : ℤ) : NansatObj :=
  let vrt2add :=
    if arr.shape = nansatShape obj then vrtFromArray arr
    else vrtResized (vrtFromArray arr) (nansatShape obj).2
      (nansatShape obj).1 resamplingAlg
  let p2add := dictUpdate [] parameters
  let res := createBand obj.raw vrt2add.fileName 1 "Float64" p2add
  { obj with
      raw := res.1
      vrt := res.1
      addedBands := obj.addedBands ++ [(res.2, vrt2add)] }

/-- Claim C5: `add_band(array=a, parameters=p)` on an object whose raw tree
has k bands appends exactly one descriptor to `raw` — its metadata being the
inherited metadata (empty for an array source) with `p` merged over it,
caller keys winning — so `raw` has k+1 bands afterwards; the working tree is
rebuilt as a fresh copy of `raw`, discarding any prior resize or
reprojection; and resolving the new band's `BandName` afterwards returns
k+1.  The hypotheses are the data-model invariants: existing raw bands carry
a `BandName`, and `p` is a python dict (duplicate-free keys) carrying the
new `BandName` `s`. -/
theorem C5_add_band (obj : NansatObj) (arr : PyArray) (p : Metadata)
    (alg : ℤ) (s : String)
    (hnamed : ∀ b ∈ obj.raw.bands, (bandNameOf b).isSome)
    (hnodup : (p.map Prod.fst).Nodup)
    (hs : mdLookup p "BandName" = some s) :
    (add_band_array obj arr p alg).raw.bands.length
        = obj.raw.bands.length + 1 ∧
    (add_band_array obj arr p alg).vrt = (add_band_array obj arr p alg).raw ∧
    ((add_band_array obj arr p alg).raw.bands.getLast?).map Band.metadata
        = some (dictUpdate [] p) ∧
    getBandNumber (add_band_array obj arr p alg) (.name s)
        = .ok ((obj.raw.bands.length : ℤ) + 1) := by
  have hb : mdLookup (dictUpdate [] p) "BandName" = some s := by
    rw [mdLookup_dictUpdate [] p "BandName" hnodup, hs]
  refine ⟨?_, rfl, ?_, ?_⟩
  · simp [add_band_array, createBand]
  · simp [add_band_array, createBand]
  · have hscan : findBandName (add_band_array obj arr p alg).vrt.bands s 1 0
        = .ok (1 + (obj.raw.bands.length : ℤ)) := by
      exact findBandName_last obj.raw.bands _ s 1 0 hnamed hb
    have hne : ¬ (1 + (obj.raw.bands.length : ℤ) = 0) := by omega
    simp only [getBandNumber, hscan, if_neg hne]
    congr 1
    omega

/-- Sample 4x4 array for exercising `add_band`. -/
def arrC : PyArray :=
  { shape := (4, 4), data := fun _ => 1 }

/-- Witness for C5: adding a band named "c" to the two-band `obj4`. -/
theorem C5_add_band_witness :
    (∀ b ∈ obj4.raw.bands, (bandNameOf b).isSome) ∧
    (([("BandName", "c")] : Metadata).map Prod.fst).Nodup ∧
    mdLookup [("BandName", "c")] "BandName" = some "c" ∧
    getBandNumber (add_band_array obj4 arrC [("BandName", "c")] 1)
        (.name "c") = .ok ((obj4.raw.bands.length : ℤ) + 1) := by
  exact ⟨by decide, by decide, by decide,
    (C5_add_band obj4 arrC [("BandName", "c")] 1 "c" (by decide) (by decide)
      (by decide)).2.2.2⟩

/-- The netCDF data-type narrowing table of `Nansat.export` (nansat.py lines
344-348): a python dict `get` with the unmapped name as default, so names
outside the table are left unchanged. -/
def exportDataTypeMap (dataType : String) : String :=
  if dataType = "UInt16" then "Int16"
  else if dataType = "CInt16" then "Int16"
  else if dataType = "UInt32" then "Int32"
  else if dataType = "CFloat32" then "Float32"
  else if dataType = "CFloat64" then "Float64"
  else dataType

/-- The per-band rewriting pass of `export` (lines 342-350): every
`VRTRasterBand` node of the built export tree has its `dataType` attribute
mapped through the narrowing table before the output is written. -/
def exportFixDataTypes (t : VRTTree) : VRTTree :=
  { t with
      bands := t.bands.map
        (fun b => { b with dataType := exportDataTypeMap b.dataType }) }

/-- The export-tree construction of `Nansat.export` (lines 323-339): with no
band subset, a full copy of the working tree; with a subset, a shallow copy
sharing the working tree's geometry and no bands, to which each resolved
band is appended as a fresh descriptor whose source reference is reattached
to the working tree's own file handle. -/
def exportBuildBase (obj : NansatObj) (bandsArg : Option (List BandID)) :
    Except Err VRTTree :=
  match bandsArg with
  | none => .ok obj.vrt
  | some bids =>
    bids.foldlM
      (fun (acc : VRTTree) bid => do
        let bn ← getBandNumber obj bid
        match obj.vrt.bands.get? (bn.toNat - 1) with
        | none => .error .keyError
        | some b =>
          pure (createBand acc obj.vrt.fileName bn b.dataType b.metadata).1)
      { obj.vrt with bands := [] }

/-- The export tree as written: the built base tree with every band's
on-disk element type narrowed. -/
def exportBuildTree (obj : NansatObj) (bandsArg : Option (List BandID)) :
    Except Err VRTTree :=
  (exportBuildBase obj bandsArg).map exportFixDataTypes

/-- The GDAL raster data-type names (the GDT enumeration). -/
def gdalDataTypes : List String :=
  ["Byte", "UInt16", "Int16", "UInt32", "Int32", "Float32", "Float64",
   "CInt16", "CInt32", "CFloat32", "CFloat64"]

/-- The complex GDAL data types. -/
def isComplexType (t : String) : Bool :=
  t == "CInt16" || t == "CInt32" || t == "CFloat32" || t == "CFloat64"

/-- The real counterpart of each complex GDAL data type.  This states the
claimed narrowing rule (spec side), for comparison with the code's table. -/
def realCounterpart (t : String) : String :=
  if t = "CInt16" then "Int16"
  else if t = "CInt32" then "Int32"
  else if t = "CFloat32" then "Float32"
  else if t = "CFloat64" then "Float64"
  else t

/-- Sample tree holding one band of complex integer type `CInt32`. -/
def treeC32 : VRTTree :=
  { fileName := "tc", rasterXSize := 2, rasterYSize := 2,
    geotransform := (0, 1, 0, 0, 0, -1), projection := "",
    gcpProjection := "", gcps := [],
    bands := [{ sourceFilename := "f", sourceBand := 1,
                metadata := [("BandName", "z")], dataType := "CInt32",
                sourceType := .complexSource }],
    metadata := [] }

/-- Sample Nansat object over `treeC32`. -/
def objC32 : NansatObj :=
  { raw := treeC32, vrt := treeC32, addedBands := [] }

/-- Counterexample for C9 as stated: `CInt32` is a complex GDAL data type
whose real counterpart is `Int32`, yet the narrowing table leaves it
unchanged, so a band of type `CInt32` survives export type-mapping as
`CInt32`. -/
theorem C9_counterexample :
    (exportBuildTree objC32 none).map (fun t => t.bands.map Band.dataType)
      = .ok ["CInt32"] ∧
    isComplexType "CInt32" = true ∧
    realCounterpart "CInt32" = "Int32" ∧
    "CInt32" ≠ "Int32" := by
  refine ⟨rfl, rfl, rfl, by decide⟩

/-- Claim C9 (amended): for every export call, each band of the built export
tree has its element type mapped through the fixed narrowing table before
the output is written; the table sends the unsigned integer types to the
signed integers of the same width (`UInt16` to `Int16`, `UInt32` to
`Int32`) and every complex type except `CInt32` to its real counterpart
(`CInt16` to `Int16`, `CFloat32` to `Float32`, `CFloat64` to `Float64`);
`CInt32` and all data types outside the table are left unchanged. -/
theorem C9_export_datatype_amended :
    (∀ (obj : NansatObj) (bandsArg : Option (List BandID)) (t : VRTTree),
        exportBuildTree obj bandsArg = .ok t →
        ∃ t₀, exportBuildBase obj bandsArg = .ok t₀ ∧
          t.bands.map Band.dataType
            = t₀.bands.map (fun b => exportDataTypeMap b.dataType)) ∧
    (∀ ty ∈ gdalDataTypes,
        (isComplexType ty = true → ty ≠ "CInt32" →
          exportDataTypeMap ty = realCounterpart ty) ∧
        (ty = "UInt16" → exportDataTypeMap ty = "Int16") ∧
        (ty = "UInt32" → exportDataTypeMap ty = "Int32") ∧
        (isComplexType ty = false → ty ≠ "UInt16" → ty ≠ "UInt32" →
          exportDataTypeMap ty = ty) ∧
        exportDataTypeMap "CInt32" = "CInt32") := by
  constructor
  · intro obj bandsArg t h
    cases hbase : exportBuildBase obj bandsArg with
    | error e =>
      rw [exportBuildTree, hbase] at h
      exact absurd h (by simp [Except.map])
    | ok t₀ =>
      rw [exportBuildTree, hbase] at h
      have ht : t = exportFixDataTypes t₀ := by
        simpa [Except.map] using h.symm
      refine ⟨t₀, rfl, ?_⟩
      subst ht
      simp [exportFixDataTypes, List.map_map]
  · decide

/-- Witness for C9 (amended): the export type pass evaluated on `obj4` and
the table evaluated at `CFloat32`. -/
theorem C9_export_datatype_amended_witness :
    exportBuildTree obj4 none = .ok (exportFixDataTypes obj4.vrt) ∧
    (∃ t₀, exportBuildBase obj4 none = .ok t₀ ∧
      (exportFixDataTypes obj4.vrt).bands.map Band.dataType
        = t₀.bands.map (fun b => exportDataTypeMap b.dataType)) ∧
    "CFloat32" ∈ gdalDataTypes ∧
    exportDataTypeMap "CFloat32" = realCounterpart "CFloat32" := by
  refine ⟨rfl, ?_, by decide, ?_⟩
  · exact C9_export_datatype_amended.1 obj4 none (exportFixDataTypes obj4.vrt)
      rfl
  · exact (C9_export_datatype_amended.2 "CFloat32" (by decide)).1 (by decide)
      (by decide)

/-- A pixel-indexed numpy matrix over the mosaic target grid. -/
abbrev Arr := ℕ × ℕ → ℚ

/-- The observable behaviour of one mosaic input file, as the loop body of
`Nansat.mosaic` sees it: whether `nClass(f)` succeeds (a file no mapper can
open leaves `self.raw = None`, so `self.raw.copy()` raises
`AttributeError`), whether `n.reproject(self)` raises, whether the
reprojected mask band can be fetched (the only failure the loop catches),
and the per-pixel mask and band values the file delivers after reprojection
onto the target grid. -/
structure MosFile where
  openOk : Bool
  reprojOk : Bool
  maskOk : Bool
  mask : Arr
  data : String → Arr

/-- The accumulator state of the mosaic loop: the valid-count matrix
`cntMat`, the two layers of `maskMat` (layer 0 holds the current file's
mask, layer 1 the running maximum), and the per-band running sum (`avgMat`)
and running sum of squares (`stdMat`). -/
structure MosState where
  cnt : Arr
  mask0 : Arr
  mask1 : Arr
  sum : String → Arr
  sumsq : String → Arr

/-- Pointwise update of a per-band matrix table. -/
def updBand (f : String → Arr) (b : String) (a : Arr) : String → Arr :=
  fun b' => if b' = b then a else f b'

/-- One accumulation step of `Nansat.mosaic` (lines 1164-1182) for a file
whose reprojected mask was fetched: the valid count grows where the mask
equals 128; `maskMat[0]` becomes the mask and `maskMat[1]` the pointwise
maximum of the current matrix; for each requested band the band values,
zeroed where the mask is below 128, are added to the running sum and their
squares to the running sum of squares. -/
def mosaicFileStep (bands : List String) (st : MosState) (f : MosFile) :
    MosState :=
  let cnt' := fun p => st.cnt p + (if f.mask p = 128 then 1 else 0)
  let mask0' := f.mask
  let mask1' := fun p => max (mask0' p) (st.mask1 p)
  let acc := bands.foldl
    (fun (s : (String → Arr) × (String → Arr)) b =>
      let a : Arr := fun p => if f.mask p < 128 then 0 else f.data b p
      (updBand s.1 b (fun p => s.1 b p + a p),
       updBand s.2 b (fun p => s.2 b p + a p * a p)))
    (st.sum, st.sumsq)
  { cnt := cnt', mask0 := mask0', mask1 := mask1',
    sum := acc.1, sumsq := acc.2 }

/-- The per-file loop of `Nansat.mosaic` (lines 1146-1182): a file that
cannot be opened raises out of the loop (`nClass(f)` is not inside any
try/except), a raising reprojection propagates as well, while a file whose
reprojected mask cannot be fetched is logged and skipped; otherwise the file
is accumulated. -/
def mosaicLoop (bands : List String) : MosState → List MosFile →
    Except Err MosState
  | st, [] => .ok st
  | st, f :: rest =>
    if f.openOk = false then .error .attributeError
    else if f.reprojOk = false then .error .projectionError
    else if f.maskOk = false then mosaicLoop bands st rest
    else mosaicLoop bands (mosaicFileStep bands st f) rest

/-- The zero-initialised accumulator (nansat.py lines 1133-1143). -/
def mosaicInit : MosState :=
  { cnt := fun _ => 0, mask0 := fun _ => 0, mask1 := fun _ => 0,
    sum := fun _ _ => 0, sumsq := fun _ _ => 0 }

/-- The matrices `Nansat.mosaic` derives after the loop and hands to
`add_band`. -/
structure MosResult where
  cnt : Arr
  avg : String → Arr
  std : String → Arr
  mask : Arr

/-- The averaging tail of `Nansat.mosaic` (lines 1184-1196): the mean is
`avgMat / cntMat`; the emitted std matrix is
`np.square((stdMat - 2*avg*avgMat + np.square(avg)) / cntMat)`, exactly as
the code computes it (`np.square` squares its argument); the final mask is
`maskMat.max(0)`.  Division is exact rational division; a zero count (NaN in
numpy) is outside the claims evaluated here, which keep the count
positive. -/
def mosaicCompute (bands : List String) (files : List MosFile) :
    Except Err MosResult :=
  match mosaicLoop bands mosaicInit files with
  | .error e => .error e
  | .ok st =>
    .ok { cnt := st.cnt,
          avg := fun b p => st.sum b p / st.cnt p,
          std := fun b p =>
            let av := st.sum b p / st.cnt p
            let e := (st.sumsq b p - 2 * av * st.sum b p + av * av)
              / st.cnt p
            e * e,
          mask := fun p => max (st.mask0 p) (st.mask1 p) }

/-- Embedding of the whole `Nansat.mosaic` call (lines 1095-1206): an error
in the loop propagates with the object untouched (no `add_band` has happened
yet); on success the combined mask band, then one mean band and one std band
per requested band name, are appended via `add_band`. -/
def mosaic (obj : NansatObj) (files : List MosFile) (bands : List String) :
    NansatObj × Option Err :=
  match mosaicCompute bands files with
  | .error e => (obj, some e)
  | .ok r =>
    let sh := nansatShape obj
    let obj1 := add_band_array obj { shape := sh, data := r.mask }
      [("BandName", "mask")] 1
    let obj2 := bands.foldl
      (fun o b =>
        let oa := add_band_array o { shape := sh, data := r.avg b }
          [("BandName", b)] 1
        add_band_array oa { shape := sh, data := r.std b }
          [("BandName", b ++ "_std")] 1)
      obj1
    (obj2, none)

/-- The variance estimator named by the claim (spec section 4.5):
`(sumSq - 2*mean*sum + count*mean^2) / count` with `mean = sum / count`. -/
def specVarianceEstimator (sumv sumsq cnt : ℚ) : ℚ :=
  let mean := sumv / cnt
  (sumsq - 2 * mean * sumv + cnt * mean * mean) / cnt

/-- A mosaic input file, valid everywhere, every band the constant `c`. -/
def mosConstFile (c : ℚ) : MosFile :=
  { openOk := true, reprojOk := true, maskOk := true,
    mask := fun _ => 128, data := fun _ _ => c }

/-- Claim C2 (code bug): mosaicking two all-valid files whose band "x" is 0
in one and 2 in the other gives, at every pixel, count 2, sum 2, sum of
squares 4 and mean 1; the claimed estimator is (4 - 2*1*2 + 2*1*1)/2 = 1
(the code's own comment, STD = sqrt(sum((x-M)^2)/n), also makes the variance
1), but the code's np.square((stdMat - 2*avg*avgMat + np.square(avg)) /
cntMat) writes ((4 - 4 + 1)/2)^2 = 1/4 into the std band. -/
theorem C2_mosaic_std_formula_bug :
    (mosaicCompute ["x"] [mosConstFile 0, mosConstFile 2]).map
        (fun r => (r.cnt (0, 0), r.std "x" (0, 0)))
      = .ok (2, 1/4) ∧
    specVarianceEstimator 2 4 2 = 1 ∧
    (1/4 : ℚ) ≠ 1 := by
  refine ⟨?_, ?_, by norm_num⟩
  · have hloop : mosaicLoop ["x"] mosaicInit [mosConstFile 0, mosConstFile 2]
        = .ok (mosaicFileStep ["x"] (mosaicFileStep ["x"] mosaicInit
            (mosConstFile 0)) (mosConstFile 2)) := rfl
    unfold mosaicCompute
    rw [hloop]
    simp only [Except.map]
    simp only [mosaicFileStep, mosaicInit, mosConstFile, updBand,
      List.foldl_cons, List.foldl_nil]
    norm_num
  · unfold specVarianceEstimator
    norm_num

/-- Claim C8: running mosaic on exactly one input file whose mask is 128 at
every pixel and whose requested band is the constant `c` everywhere yields,
at every pixel, a valid count of 1, a mean band equal to `c` and a std band
equal to 0 (exactly, in the rational model of float arithmetic). -/
theorem C8_mosaic_single_constant (c : ℚ) (p : ℕ × ℕ) :
    (mosaicCompute ["b"] [mosConstFile c]).map
        (fun r => (r.cnt p, r.avg "b" p, r.std "b" p))
      = .ok (1, c, 0) := by
  have hloop : mosaicLoop ["b"] mosaicInit [mosConstFile c]
      = .ok (mosaicFileStep ["b"] mosaicInit (mosConstFile c)) := rfl
  unfold mosaicCompute
  rw [hloop]
  simp only [Except.map]
  simp only [mosaicFileStep, mosaicInit, mosConstFile, updBand,
    List.foldl_cons, List.foldl_nil]
  norm_num
  ring_nf

/-- A file no mapper can open. -/
def mosBadFile : MosFile :=
  { openOk := false, reprojOk := true, maskOk := true,
    mask := fun _ => 0, data := fun _ _ => 0 }

/-- An openable, reprojectable file whose reprojected mask fetch fails. -/
def mosSkipFile : MosFile :=
  { openOk := true, reprojOk := true, maskOk := false,
    mask := fun _ => 0, data := fun _ _ => 0 }

/-- Counterexample for C7 as stated: `nClass(f)` is outside every try/except
of the mosaic loop, so a file that cannot be opened raises out of `mosaic`
instead of being logged and skipped — the call propagates the error rather
than returning normally. -/
theorem C7_counterexample :
    (mosaic obj4 [mosBadFile] ["x"]).2 = some Err.attributeError := rfl

/-- With every file openable and reprojectable, the loop result equals the
loop over only the files whose reprojected mask can be fetched: the others
are skipped without touching the accumulator. -/
theorem mosaicLoop_filter (bands : List String) :
    ∀ (files : List MosFile) (st : MosState),
    (∀ f ∈ files, f.openOk = true ∧ f.reprojOk = true) →
    mosaicLoop bands st files
      = mosaicLoop bands st (files.filter (fun f => f.maskOk))
  | [], _, _ => rfl
  | f :: rest, st, h => by
    obtain ⟨ho, hr⟩ := h f (List.mem_cons_self f rest)
    have hrest := fun f' hf' => h f' (List.mem_cons_of_mem f hf')
    rw [List.filter_cons]
    by_cases hm : f.maskOk = true
    · rw [if_pos (by simpa using hm)]
      rw [mosaicLoop, mosaicLoop]
      simp only [ho, hr, hm]
      norm_num
      exact mosaicLoop_filter bands rest (mosaicFileStep bands st f) hrest
    · rw [if_neg (by simpa using hm)]
      rw [mosaicLoop]
      simp only [Bool.not_eq_true] at hm
      simp only [ho, hr, hm]
      norm_num
      exact mosaicLoop_filter bands rest st hrest

/-- With every file openable and reprojectable the loop cannot raise. -/
theorem mosaicLoop_ok (bands : List String) :
    ∀ (files : List MosFile) (st : MosState),
    (∀ f ∈ files, f.openOk = true ∧ f.reprojOk = true) →
    ∃ st', mosaicLoop bands st files = .ok st'
  | [], st, _ => ⟨st, rfl⟩
  | f :: rest, st, h => by
    obtain ⟨ho, hr⟩ := h f (List.mem_cons_self f rest)
    have hrest := fun f' hf' => h f' (List.mem_cons_of_mem f hf')
    rw [mosaicLoop]
    simp only [ho, hr]
    norm_num
    by_cases hm : f.maskOk = true
    · simp only [hm]
      norm_num
      exact mosaicLoop_ok bands rest (mosaicFileStep bands st f) hrest
    · simp only [Bool.not_eq_true] at hm
      simp only [hm]
      norm_num
      exact mosaicLoop_ok bands rest st hrest

/-- When the loop succeeds, the mosaic call returns normally (no raised
error): the band-adding tail cannot fail. -/
theorem mosaic_snd_none (obj : NansatObj) (bands : List String)
    (files : List MosFile) (st' : MosState)
    (h : mosaicLoop bands mosaicInit files = .ok st') :
    (mosaic obj files bands).2 = none := by
  unfold mosaic mosaicCompute
  rw [h]

/-- Claim C7 (amended): in `mosaic`, the per-file failure that is logged and
skipped is the failure to fetch the reprojected mask band — with that kind
of failure only, the accumulation equals the accumulation over the remaining
files and the overall mosaic call returns normally.  A mapper-open failure
(`nClass(f)` raising) or a raising reprojection is not caught: it propagates
out of mosaic; the claim named those as skipped as well. -/
theorem C7_mosaic_skip_amended (bands : List String) (files : List MosFile)
    (h : ∀ f ∈ files, f.openOk = true ∧ f.reprojOk = true) :
    mosaicCompute bands files
      = mosaicCompute bands (files.filter (fun f => f.maskOk)) ∧
    (∃ r, mosaicCompute bands files = .ok r) ∧
    (∀ obj, (mosaic obj files bands).2 = none) := by
  have hfilter := mosaicLoop_filter bands files mosaicInit h
  obtain ⟨st', hst⟩ := mosaicLoop_ok bands files mosaicInit h
  refine ⟨?_, ?_, ?_⟩
  · unfold mosaicCompute
    rw [hfilter]
  · unfold mosaicCompute
    rw [hst]
    exact ⟨_, rfl⟩
  · intro obj
    exact mosaic_snd_none obj bands files st' hst

/-- Witness for C7 (amended): two openable files, the second of which loses
its mask after reprojection and is skipped. -/
theorem C7_mosaic_skip_amended_witness :
    (∀ f ∈ [mosConstFile 1, mosSkipFile],
      f.openOk = true ∧ f.reprojOk = true) ∧
    mosaicCompute ["x"] [mosConstFile 1, mosSkipFile]
      = mosaicCompute ["x"]
          (([mosConstFile 1, mosSkipFile]).filter (fun f => f.maskOk)) ∧
    (∀ obj, (mosaic obj [mosConstFile 1, mosSkipFile] ["x"]).2 = none) := by
  have h : ∀ f ∈ [mosConstFile 1, mosSkipFile],
      f.openOk = true ∧ f.reprojOk = true := by
    intro f hf
    fin_cases hf <;> exact ⟨rfl, rfl⟩
  exact ⟨h, (C7_mosaic_skip_amended ["x"] [mosConstFile 1, mosSkipFile] h).1,
    (C7_mosaic_skip_amended ["x"] [mosConstFile 1, mosSkipFile] h).2.2⟩
